import Mathlib

/-!
# AutoDash-OS device-simulation subsystem: a shallow embedding

This file embeds the device-simulation core of the AutoDash-OS repository
(the `src/system` layer: `BluetoothSim`, `USBMonitor`, `MockI2C`) as pure
Lean functions, and proves the testable properties stated in the spec
about them.

Modelling conventions, fixed once for the whole file:
* C++ member state (`m_...` fields) becomes a Lean structure; each method
  becomes a function `State → args → State × List Event` (or a plain
  query returning a value).  Qt signal emissions become elements of an
  explicit event list, in emission order.
* `QTimer` object identity is modelled by a `Nat` token: a running
  one-shot timer is an entry `(deviceId, token)` in a timer map, and each
  newly created timer receives a fresh token, so "the pending timer was
  not replaced" is the statement that the map is unchanged.
* Randomness (`std::mt19937` draws, `std::uniform_real_distribution`
  samples) and the host environment (current time, generated addresses,
  directory listings, `QStorageInfo`) are externalized as explicit
  function arguments.
* `double` is modelled as `ℚ` (the properties at stake are order/clamp
  arithmetic, not bit-level floating point); `qint64` file sizes as `ℕ`
  (Qt reports non-negative sizes, and C++ integer division agrees with
  `Nat` division on non-negative operands); `QDateTime`/timestamps as
  opaque `String`s.
-/

namespace AutoDash

/-! ## Bluetooth simulator: data model (src/system/BluetoothSim.h) -/

/-- Model of `enum class BluetoothDeviceType` (BluetoothSim.h). -/
inductive BluetoothDeviceType where
  | PHONE | HEADSET | SPEAKER | CAR_AUDIO | SMARTWATCH | TABLET | LAPTOP
deriving DecidableEq, Repr

/-- Model of `enum class ConnectionState` (BluetoothSim.h). -/
inductive ConnectionState where
  | DISCONNECTED | SEARCHING | CONNECTING | CONNECTED | PAIRING | PAIRED | ERROR
deriving DecidableEq, Repr

/-- Model of `struct BluetoothDevice` (BluetoothSim.h).  `QDateTime pairedTime` is
modelled as a `String` (it is only ever set from the current wall clock and
serialized as an ISO string). -/
structure BluetoothDevice where
  deviceId : String
  deviceName : String
  deviceAddress : String
  deviceType : BluetoothDeviceType
  connectionState : ConnectionState
  isPaired : Bool
  isTrusted : Bool
  signalStrength : Int
  lastSeen : String
  pairedTime : String
  supportedProfiles : List String
  manufacturer : String
  model : String
  firmwareVersion : String
deriving DecidableEq, Repr

/-- The Qt signals of `BluetoothSim`, as explicit events. -/
inductive BTEvent where
  | deviceDiscovered (device : BluetoothDevice)
  | deviceRemoved (deviceId : String)
  | devicePaired (deviceId : String)
  | deviceUnpaired (deviceId : String)
  | deviceConnected (deviceId : String)
  | deviceDisconnected (deviceId : String)
  | connectionStateChanged (deviceId : String) (state : ConnectionState)
  | signalStrengthChanged (deviceId : String) (strength : Int)
  | discoveryStarted
  | discoveryStopped
deriving DecidableEq, Repr

/-- The member state of the `BluetoothSim` singleton (BluetoothSim.h,
`m_...` fields).  The three periodic `QTimer`s are modelled by
running/stopped flags; the per-device one-shot `QMap<QString, QTimer*>`
timer maps are association lists from device id to a timer token, with
`nextTimerId` supplying fresh tokens for newly created `QTimer` objects. -/
structure BTState where
  availableDevices : List BluetoothDevice
  pairedDevices : List BluetoothDevice
  pairingTimers : List (String × Nat)
  connectionTimers : List (String × Nat)
  nextTimerId : Nat
  isInitialized : Bool
  isDiscovering : Bool
  autoReconnect : Bool
  simulateBluetoothOff : Bool
  simulateInterference : Bool
  simulateLowBattery : Bool
  discoveryTimeout : Int
  pairingTimeout : Int
  connectionTimeout : Int
  supportedProfiles : List String
  discoveryTimerActive : Bool
  stateTimerActive : Bool
  signalTimerActive : Bool
deriving DecidableEq, Repr

namespace BluetoothSim

/-- Model of `BluetoothSim::isInitialized` (BluetoothSim.cpp:81-84):
`return m_isInitialized && !m_simulateBluetoothOff;` -/
def isInitialized (s : BTState) : Bool :=
  s.isInitialized && !s.simulateBluetoothOff

/-- Model of `BluetoothSim::startDiscovery` (BluetoothSim.cpp:86-98): returns with
no effect unless `isInitialized()`; otherwise sets the discovering flag,
starts the discovery timer and emits `discoveryStarted`. -/
def startDiscovery (s : BTState) : BTState × List BTEvent :=
  if !isInitialized s then (s, [])
  else ({ s with isDiscovering := true, discoveryTimerActive := true },
        [BTEvent.discoveryStarted])

/-- Model of `BluetoothSim::stopDiscovery` (BluetoothSim.cpp:100-107). -/
def stopDiscovery (s : BTState) : BTState × List BTEvent :=
  ({ s with isDiscovering := false, discoveryTimerActive := false },
   [BTEvent.discoveryStopped])

/-- Model of `BluetoothSim::isDiscovering` (BluetoothSim.cpp:109-112):
`return m_isDiscovering && isInitialized();` -/
def isDiscovering (s : BTState) : Bool :=
  s.isDiscovering && isInitialized s

/-- Model of `BluetoothSim::simulateBluetoothOff` (BluetoothSim.cpp:424-433): sets
the fault flag first, then (when enabling) calls `stopDiscovery()`. -/
def simulateBluetoothOff (s : BTState) (enable : Bool) : BTState × List BTEvent :=
  let s1 := { s with simulateBluetoothOff := enable }
  if enable then stopDiscovery s1 else (s1, [])

/-- Model of `BluetoothSim::generateSupportedProfiles` (BluetoothSim.cpp:636-661). -/
def generateSupportedProfiles (type : BluetoothDeviceType) : List String :=
  match type with
  | BluetoothDeviceType.PHONE => ["A2DP", "AVRCP", "HFP", "HSP", "PBAP", "MAP"]
  | BluetoothDeviceType.HEADSET => ["A2DP", "AVRCP", "HFP", "HSP"]
  | BluetoothDeviceType.SPEAKER => ["A2DP", "AVRCP"]
  | BluetoothDeviceType.CAR_AUDIO => ["A2DP", "AVRCP", "HFP", "HSP", "PBAP", "MAP"]
  | BluetoothDeviceType.SMARTWATCH => ["HFP", "HSP", "OPP"]
  | _ => ["A2DP", "AVRCP"]

/-- The `BluetoothDevice` record built by
`BluetoothSim::simulateDeviceAppearance` (BluetoothSim.cpp:270-291).
External inputs are explicit: `nowMs` is `QDateTime::currentMSecsSinceEpoch()`,
`rand` the `m_randomGenerator()` draw, `addr` the generated address and
`nowStr` the formatted current time.  A default-constructed `QDateTime`
(`pairedTime`) is the empty string. -/
def appearedDevice (deviceName : String) (type : BluetoothDeviceType)
    (nowMs : Nat) (rand : Nat) (addr : String) (nowStr : String) : BluetoothDevice :=
  { deviceId := "BT_" ++ toString nowMs
    deviceName := deviceName
    deviceAddress := addr
    deviceType := type
    connectionState := ConnectionState.DISCONNECTED
    isPaired := false
    isTrusted := false
    signalStrength := 75 + ((rand : Int) % 25)
    lastSeen := nowStr
    pairedTime := ""
    supportedProfiles := generateSupportedProfiles type
    manufacturer := "Generic Manufacturer"
    model := "Generic Model"
    firmwareVersion := "1.0.0" }

/-- Model of `BluetoothSim::simulateDeviceAppearance` (BluetoothSim.cpp:270-291):
appends the new device to the available list and emits `deviceDiscovered`. -/
def simulateDeviceAppearance (s : BTState) (deviceName : String)
    (type : BluetoothDeviceType) (nowMs : Nat) (rand : Nat)
    (addr : String) (nowStr : String) : BTState × List BTEvent :=
  let device := appearedDevice deviceName type nowMs rand addr nowStr
  ({ s with availableDevices := s.availableDevices ++ [device] },
   [BTEvent.deviceDiscovered device])

/-- Model of `BluetoothSim::isDevicePaired` (BluetoothSim.cpp:143-151): the loop
returns the `isPaired` flag of the first paired-list entry with the given
id, `false` if none matches. -/
def isDevicePaired (devices : List BluetoothDevice) (deviceId : String) : Bool :=
  match devices with
  | [] => false
  | d :: rest => if d.deviceId = deviceId then d.isPaired else isDevicePaired rest deviceId

/-- The lookup loop of `BluetoothSim::getConnectionState`
(BluetoothSim.cpp:262-266): the state of the first entry with the id. -/
def lookupConnectionState (deviceId : String) : List BluetoothDevice → ConnectionState
  | [] => ConnectionState.DISCONNECTED
  | d :: rest =>
    if d.deviceId = deviceId then d.connectionState else lookupConnectionState deviceId rest

/-- Model of `BluetoothSim::getConnectionState` (BluetoothSim.cpp:260-268): scans
only `m_pairedDevices`; returns `DISCONNECTED` when no entry matches. -/
def getConnectionState (s : BTState) (deviceId : String) : ConnectionState :=
  lookupConnectionState deviceId s.pairedDevices

/-- Model of `QMap<QString, QTimer*>::operator[]` assignment
(`m_pairingTimers[deviceId] = pairingTimer`, BluetoothSim.cpp:506): the
entry for the key is replaced when present, otherwise inserted. -/
def insertTimer (m : List (String × Nat)) (key : String) (tok : Nat) : List (String × Nat) :=
  match m with
  | [] => [(key, tok)]
  | e :: rest => if e.1 = key then (key, tok) :: rest else e :: insertTimer rest key tok

/-- Model of `QMap::remove` (`m_pairingTimers.remove(deviceId)`, BluetoothSim.cpp:502). -/
def removeTimer (m : List (String × Nat)) (key : String) : List (String × Nat) :=
  m.filter (fun e => e.1 ≠ key)

/-- The `for (auto& device : m_availableDevices)` loop of
`BluetoothSim::pairDevice` (BluetoothSim.cpp:161-177): `none` when no
available device has the id; `some (false, _)` when the first match is
already `PAIRING` (rejected before any mutation); `some (true, devices')`
when the first match is switched to `PAIRING` in place. -/
def tryStartPairing (deviceId : String) :
    List BluetoothDevice → Option (Bool × List BluetoothDevice)
  | [] => none
  | d :: rest =>
    if d.deviceId = deviceId then
      if d.connectionState = ConnectionState.PAIRING then some (false, d :: rest)
      else some (true, { d with connectionState := ConnectionState.PAIRING } :: rest)
    else
      match tryStartPairing deviceId rest with
      | none => none
      | some (ok, rest') => some (ok, d :: rest')

/-- Model of `BluetoothSim::simulatePairingProcess` (BluetoothSim.cpp:474-507),
minus the delayed callback body (modelled separately as
`pairingTimerFired`): creates a fresh single-shot `QTimer`, starts it and
stores it under the device id in `m_pairingTimers`. -/
def simulatePairingProcess (s : BTState) (deviceId : String) : BTState :=
  { s with pairingTimers := insertTimer s.pairingTimers deviceId s.nextTimerId
           nextTimerId := s.nextTimerId + 1 }

/-- Model of `BluetoothSim::pairDevice` (BluetoothSim.cpp:153-181). -/
def pairDevice (s : BTState) (deviceId : String) : Bool × BTState × List BTEvent :=
  if !isInitialized s then (false, s, [])
  else
    match tryStartPairing deviceId s.availableDevices with
    | none => (false, s, [])
    | some (false, _) => (false, s, [])
    | some (true, avail') =>
      (true,
       simulatePairingProcess { s with availableDevices := avail' } deviceId,
       [BTEvent.connectionStateChanged deviceId ConnectionState.PAIRING])

/-- The `for (auto& device : m_pairedDevices)` loop of
`BluetoothSim::connectDevice` (BluetoothSim.cpp:219-235), with the same
shape as `tryStartPairing`. -/
def tryStartConnecting (deviceId : String) :
    List BluetoothDevice → Option (Bool × List BluetoothDevice)
  | [] => none
  | d :: rest =>
    if d.deviceId = deviceId then
      if d.connectionState = ConnectionState.CONNECTING then some (false, d :: rest)
      else some (true, { d with connectionState := ConnectionState.CONNECTING } :: rest)
    else
      match tryStartConnecting deviceId rest with
      | none => none
      | some (ok, rest') => some (ok, d :: rest')

/-- Model of `BluetoothSim::simulateConnectionProcess` (BluetoothSim.cpp:509-534),
minus the delayed callback body: registers a fresh single-shot timer in
`m_connectionTimers`. -/
def simulateConnectionProcess (s : BTState) (deviceId : String) : BTState :=
  { s with connectionTimers := insertTimer s.connectionTimers deviceId s.nextTimerId
           nextTimerId := s.nextTimerId + 1 }

/-- Model of `BluetoothSim::connectDevice` (BluetoothSim.cpp:205-239): rejected
(with no state change) when not initialized, when `isDevicePaired` is
false, or when the device is already `CONNECTING`. -/
def connectDevice (s : BTState) (deviceId : String) : Bool × BTState × List BTEvent :=
  if !isInitialized s then (false, s, [])
  else if !isDevicePaired s.pairedDevices deviceId then (false, s, [])
  else
    match tryStartConnecting deviceId s.pairedDevices with
    | none => (false, s, [])
    | some (false, _) => (false, s, [])
    | some (true, paired') =>
      (true,
       simulateConnectionProcess { s with pairedDevices := paired' } deviceId,
       [BTEvent.connectionStateChanged deviceId ConnectionState.CONNECTING])

/-- The `for (auto& device : m_availableDevices)` loop inside the pairing
timer callback (BluetoothSim.cpp:482-499): the first device with the id is
updated (`isPaired = true`, state `PAIRED`, `pairedTime` stamped) and
removed from the list, and the updated record is returned; the loop
`break`s after it.  The C++ removes the updated element with
`m_availableDevices.removeOne(device)`: `removeOne` erases the first list
entry equal to the updated record, which is the updated entry itself,
since every entry before it has a different `deviceId` (the loop matched
on the first occurrence) and so cannot compare equal to it. -/
def completePairing (deviceId : String) (now : String) :
    List BluetoothDevice → List BluetoothDevice × Option BluetoothDevice
  | [] => ([], none)
  | d :: rest =>
    if d.deviceId = deviceId then
      (rest, some { d with isPaired := true
                           connectionState := ConnectionState.PAIRED
                           pairedTime := now })
    else
      let (rest', found) := completePairing deviceId now rest
      (d :: rest', found)

/-- The one-shot pairing timer callback registered by
`BluetoothSim::simulatePairingProcess` (BluetoothSim.cpp:480-503): on
expiry the matched device is marked paired, appended to `m_pairedDevices`,
removed from `m_availableDevices`, `devicePaired` and
`connectionStateChanged(PAIRED)` are emitted, and the timer entry is
removed from `m_pairingTimers` (also when no device matched).  `now` is
`QDateTime::currentDateTime()`; the `savePairedDevices()` disk write does
not touch in-memory state. -/
def pairingTimerFired (s : BTState) (deviceId : String) (now : String) :
    BTState × List BTEvent :=
  let (avail', found) := completePairing deviceId now s.availableDevices
  match found with
  | some d =>
    ({ s with availableDevices := avail'
              pairedDevices := s.pairedDevices ++ [d]
              pairingTimers := removeTimer s.pairingTimers deviceId },
     [BTEvent.devicePaired deviceId,
      BTEvent.connectionStateChanged deviceId ConnectionState.PAIRED])
  | none =>
    ({ s with availableDevices := avail'
              pairingTimers := removeTimer s.pairingTimers deviceId }, [])

end BluetoothSim

/-! ## USB monitor: data model (src/system/USBMonitor.h) -/

/-- Model of `struct MediaFile` (USBMonitor.h).  `qint64 fileSize` is modelled as
`ℕ` (Qt file sizes are non-negative) and `QDateTime lastModified` as an
opaque `String`. -/
structure MediaFile where
  fileName : String
  filePath : String
  title : String
  artist : String
  album : String
  duration : String
  fileSize : Nat
  fileType : String
  lastModified : String
deriving DecidableEq, Repr

/-- Model of `struct USBDevice` (USBMonitor.h). -/
structure USBDevice where
  deviceId : String
  deviceName : String
  mountPoint : String
  totalSpace : Nat
  freeSpace : Nat
  fileSystem : String
  isConnected : Bool
  connectedTime : String
  mediaFiles : List MediaFile
deriving DecidableEq, Repr

/-- The Qt signals of `USBMonitor` used by the modelled operations. -/
inductive USBEvent where
  | deviceConnected (device : USBDevice)
  | deviceDisconnected (deviceId : String)
  | mediaFilesChanged (deviceId : String) (files : List MediaFile)
  | mediaFileAdded (deviceId : String) (file : MediaFile)
  | mediaFileRemoved (deviceId : String) (fileName : String)
deriving DecidableEq, Repr

/-- The member state of the `USBMonitor` singleton (USBMonitor.h). -/
structure USBState where
  connectedDevices : List USBDevice
  watchDirectories : List String
  supportedFormats : List String
  isMonitoring : Bool
  autoScan : Bool
  simulateMountError : Bool
  simulateFileSystemError : Bool
  simulateCorruptedFiles : Bool
  scanTimerActive : Bool
deriving DecidableEq, Repr

/-- A directory entry as reported by
`dir.entryInfoList(filters, QDir::Files)`: file name, `QFileInfo::size()`
and `QFileInfo::lastModified()`.  The host filesystem is externalized as
a function from mount point to such a listing (`none` models
`!dir.exists()`). -/
structure FsEntry where
  fileName : String
  size : Nat
  lastModified : String
deriving DecidableEq, Repr

namespace USBMonitor

/-- Model of `QFileInfo::suffix()` of a bare file name: the part after the last
`'.'`, empty when the name has no dot. -/
def fileSuffix (name : String) : String :=
  if name.toList.contains '.' then
    String.mk ((name.toList.reverse.takeWhile (fun c => c ≠ '.')).reverse)
  else ""

/-- Model of `QFileInfo::baseName()` of a bare file name: the part before the
first `'.'`. -/
def fileBaseName (name : String) : String :=
  String.mk (name.toList.takeWhile (fun c => c ≠ '.'))

/-- Prefix test on character lists (helper for the `QString` operations
below, which are written out structurally so that they evaluate inside
the kernel). -/
def charsStartWith : List Char → List Char → Bool
  | [], _ => true
  | _ :: _, [] => false
  | p :: ps, c :: cs => p = c && charsStartWith ps cs

/-- Helper for `strContains`: does `pat` occur in the list? -/
def charsContain (pat : List Char) : List Char → Bool
  | [] => charsStartWith pat []
  | c :: cs => charsStartWith pat (c :: cs) || charsContain pat cs

/-- Model of `QString::contains` on strings. -/
def strContains (s pat : String) : Bool :=
  charsContain pat.toList s.toList

/-- Model of `QString::toLower`, on the ASCII names and extensions this simulator
handles. -/
def strToLower (s : String) : String :=
  String.mk (s.toList.map Char.toLower)

/-- Model of `QChar::isSpace` for the whitespace that can surround the
`"Artist - Title"` filename parts. -/
def isSpaceChar (c : Char) : Bool :=
  c = ' ' || c = '\t' || c = '\n' || c = '\r'

/-- Model of `QString::trimmed`: strip leading and trailing whitespace. -/
def strTrim (s : String) : String :=
  String.mk (((s.toList.dropWhile isSpaceChar).reverse.dropWhile isSpaceChar).reverse)

/-- Worker for `strSplitOn`: left-to-right non-overlapping search for the
(non-empty) separator, keeping empty parts, with a character-count fuel
so that the recursion is structural. -/
def splitOnCharsAux (sep : List Char) : Nat → List Char → List Char → List (List Char)
  | _, acc, [] => [acc.reverse]
  | 0, acc, cs => [acc.reverse ++ cs]
  | fuel + 1, acc, c :: cs =>
    if charsStartWith sep (c :: cs) then
      acc.reverse :: splitOnCharsAux sep fuel [] ((c :: cs).drop sep.length)
    else
      splitOnCharsAux sep fuel (c :: acc) cs

/-- Model of `QString::split(sep)` with the default `Qt::KeepEmptyParts`
behaviour. -/
def strSplitOn (s sep : String) : List String :=
  if sep.toList.isEmpty then [s]
  else (splitOnCharsAux sep.toList (s.toList.length + 1) [] s.toList).map String.mk

/-- Model of `QString("%1").arg(n, 2, 10, QChar('0'))`: decimal rendering padded
with `'0'` to a minimum field width of 2. -/
def padToWidth2 (n : Nat) : String :=
  if n < 10 then "0" ++ toString n else toString n

/-- Model of `USBMonitor::getFileDuration` (USBMonitor.cpp:558-579): duration
estimated from the file size and an assumed bitrate / sample rate for the
extension; integer division on non-negative `qint64` agrees with `Nat`
division. -/
def getFileDuration (fileName : String) (size : Nat) : String :=
  let extension := strToLower (fileSuffix fileName)
  if extension = "mp3" then
    let durationSeconds := (size * 8) / (128 * 1024)
    padToWidth2 (durationSeconds / 60) ++ ":" ++ padToWidth2 (durationSeconds % 60)
  else if extension = "wav" then
    let durationSeconds := size / (44100 * 2 * 2)
    padToWidth2 (durationSeconds / 60) ++ ":" ++ padToWidth2 (durationSeconds % 60)
  else "00:00"

/-- The metadata record produced by `USBMonitor::getFileMetadataInternal`
(USBMonitor.cpp:581-603).  The C++ returns these four fields as a JSON
string which the caller parses right back under the same keys; the
serialize/parse pair is the identity on the fields, so the record is
returned directly.  Filename pattern `"Artist - Title"`: when the base
name contains `" - "`, it is split on that separator and, if at least two
parts result, `artist`/`title` are the first two parts trimmed. -/
structure FileMetadata where
  title : String
  artist : String
  album : String
  duration : String
deriving DecidableEq, Repr

/-- Model of `USBMonitor::getFileMetadataInternal` (USBMonitor.cpp:581-603). -/
def getFileMetadataInternal (fileName : String) (size : Nat) : FileMetadata :=
  let base := fileBaseName fileName
  let metadata : FileMetadata :=
    { title := base
      artist := "Unknown Artist"
      album := "Unknown Album"
      duration := getFileDuration fileName size }
  if strContains base " - " then
    match strSplitOn base " - " with
    | p0 :: p1 :: _ => { metadata with artist := strTrim p0, title := strTrim p1 }
    | _ => metadata
  else metadata

/-- Model of `USBMonitor::isMediaFile` (USBMonitor.cpp:325-329). -/
def isMediaFile (formats : List String) (fileName : String) : Bool :=
  formats.contains (strToLower (fileSuffix fileName))

/-- The `MediaFile` built for one directory entry by the scan loop body
(USBMonitor.cpp:240-267).  `getFileMetadataInternal` always returns a
non-empty JSON document, so the `metadata.isEmpty()` fallback branch is
dead and the metadata fields are always taken from it.
`QFileInfo::absoluteFilePath()` is the mount point joined with the file
name. -/
def scanEntryToMediaFile (mountPoint : String) (e : FsEntry) : MediaFile :=
  let md := getFileMetadataInternal e.fileName e.size
  { fileName := e.fileName
    filePath := mountPoint ++ "/" ++ e.fileName
    title := md.title
    artist := md.artist
    album := md.album
    duration := md.duration
    fileSize := e.size
    fileType := strToLower (fileSuffix e.fileName)
    lastModified := e.lastModified }

/-- The fresh media-file list built by `USBMonitor::scanMediaFiles`
(USBMonitor.cpp:237-268) from a directory listing: the listing already
went through the `"*.ext"` name filters of `entryInfoList`, and each
entry is additionally checked with `isMediaFile`. -/
def scanDeviceFiles (formats : List String) (mountPoint : String)
    (entries : List FsEntry) : List MediaFile :=
  (entries.filter (fun e => isMediaFile formats e.fileName)).map
    (scanEntryToMediaFile mountPoint)

/-- Model of `USBMonitor::updateDeviceSpace` (USBMonitor.cpp:456-469): the first
device with the id gets its space fields refreshed from `QStorageInfo`
(externalized as `storage`; `none` models `!storage.isValid()`), then the
loop `break`s. -/
def updateDeviceSpace (storage : String → Option (Nat × Nat × String))
    (deviceId : String) : List USBDevice → List USBDevice
  | [] => []
  | d :: rest =>
    if d.deviceId = deviceId then
      (match storage d.mountPoint with
       | some (tot, free, fsType) =>
         { d with totalSpace := tot, freeSpace := free, fileSystem := fsType }
       | none => d) :: rest
    else d :: updateDeviceSpace storage deviceId rest

/-- One iteration of the `for (auto& device : m_connectedDevices)` loop of
`USBMonitor::scanMediaFiles` (USBMonitor.cpp:223-277), acting on the
device at position `i` of the registry: when it matches the id and is
connected and its mount directory exists, its media-file list is replaced
wholesale with the freshly built list, `updateDeviceSpace` runs over the
registry, and `mediaFilesChanged` is emitted; otherwise nothing happens. -/
def scanMediaFilesAt (formats : List String) (deviceId : String)
    (fs : String → Option (List FsEntry))
    (storage : String → Option (Nat × Nat × String))
    (devs : List USBDevice) (i : Nat) : List USBDevice × List USBEvent :=
  match devs[i]? with
  | none => (devs, [])
  | some d =>
    if d.deviceId = deviceId ∧ d.isConnected then
      match fs d.mountPoint with
      | none => (devs, [])
      | some entries =>
        let files := scanDeviceFiles formats d.mountPoint entries
        let devs' := devs.set i { d with mediaFiles := files }
        (updateDeviceSpace storage deviceId devs',
         [USBEvent.mediaFilesChanged deviceId files])
    else (devs, [])

/-- The scan loop run over positions `i, i+1, …, i+k-1` of the registry
(the C++ range-for visits each position once, in order; field mutation
never changes the list length, so positions are stable). -/
def scanMediaFilesFrom (formats : List String) (deviceId : String)
    (fs : String → Option (List FsEntry))
    (storage : String → Option (Nat × Nat × String)) :
    Nat → Nat → List USBDevice → List USBDevice × List USBEvent
  | 0, _, devs => (devs, [])
  | k + 1, i, devs =>
    let (devs1, evs1) := scanMediaFilesAt formats deviceId fs storage devs i
    let (devs2, evs2) := scanMediaFilesFrom formats deviceId fs storage k (i + 1) devs1
    (devs2, evs1 ++ evs2)

/-- Model of `USBMonitor::scanMediaFiles` (USBMonitor.cpp:223-277). -/
def scanMediaFiles (s : USBState) (deviceId : String)
    (fs : String → Option (List FsEntry))
    (storage : String → Option (Nat × Nat × String)) : USBState × List USBEvent :=
  let (devs, evs) := scanMediaFilesFrom s.supportedFormats deviceId fs storage
      s.connectedDevices.length 0 s.connectedDevices
  ({ s with connectedDevices := devs }, evs)

/-- The `USBDevice` record built by `USBMonitor::simulateUSBInsertion`
(USBMonitor.cpp:94-121); `nowMs` is `QDateTime::currentMSecsSinceEpoch()`
(inside `generateDeviceId`), `nowStr` the current time. -/
def insertedDevice (deviceName : String) (nowMs : Nat) (nowStr : String) : USBDevice :=
  { deviceId := "USB_" ++ toString nowMs
    deviceName := deviceName
    mountPoint := "mnt/usb/" ++ ("USB_" ++ toString nowMs)
    totalSpace := 32000000000
    freeSpace := 28000000000
    fileSystem := "FAT32"
    isConnected := true
    connectedTime := nowStr
    mediaFiles := [] }

/-- Model of `USBMonitor::simulateUSBInsertion` (USBMonitor.cpp:94-121); the
`mkpath`/watcher calls touch only the host filesystem. -/
def simulateUSBInsertion (s : USBState) (deviceName : String)
    (nowMs : Nat) (nowStr : String) : USBState × List USBEvent :=
  let device := insertedDevice deviceName nowMs nowStr
  ({ s with connectedDevices := s.connectedDevices ++ [device] },
   [USBEvent.deviceConnected device])

/-- The removal loop of `USBMonitor::simulateUSBRemoval`
(USBMonitor.cpp:130-143): the first device whose id equals the target is
removed (emitting `deviceDisconnected` for it), then the loop `break`s. -/
def removeFirstDevice (targetDeviceId : String) :
    List USBDevice → List USBDevice × List USBEvent
  | [] => ([], [])
  | d :: rest =>
    if d.deviceId = targetDeviceId then
      (rest, [USBEvent.deviceDisconnected targetDeviceId])
    else
      let (rest', evs) := removeFirstDevice targetDeviceId rest
      (d :: rest', evs)

/-- Model of `USBMonitor::simulateUSBRemoval` (USBMonitor.cpp:123-144): an empty
id argument is replaced by the id of the first registered device (when
one exists) before the removal loop runs. -/
def simulateUSBRemoval (s : USBState) (deviceId : String) : USBState × List USBEvent :=
  let targetDeviceId :=
    match s.connectedDevices with
    | [] => deviceId
    | d :: _ => if deviceId = "" then d.deviceId else deviceId
  let (devs', evs) := removeFirstDevice targetDeviceId s.connectedDevices
  ({ s with connectedDevices := devs' }, evs)

end USBMonitor

/-! ## Mock I2C sensor bus: data model (src/system/MockI2C.h) -/

/-- Model of `struct SensorData` (MockI2C.h); `double` fields as `ℚ`. -/
structure SensorData where
  temperature : ℚ
  humidity : ℚ
  pressure : ℚ
  lightLevel : ℚ
  isValid : Bool
  timestamp : String
deriving DecidableEq, Repr

/-- The Qt signals of `MockI2C`. -/
inductive I2CEvent where
  | dataUpdated (data : SensorData)
  | connectionError (message : String)
  | sensorError (message : String)
  | calibrationChanged
deriving DecidableEq, Repr

/-- The member state of the `MockI2C` singleton (MockI2C.h).  The
`std::uniform_real_distribution` members are determined by the
`min`/`max` fields kept alongside them and their draws are externalized,
so they carry no extra state of their own. -/
structure I2CState where
  currentData : SensorData
  isConnected : Bool
  simulateConnectionError : Bool
  simulateSensorFailure : Bool
  simulateDataCorruption : Bool
  dataLoggingEnabled : Bool
  tempOffset : ℚ
  humidityOffset : ℚ
  pressureOffset : ℚ
  lightOffset : ℚ
  tempMin : ℚ
  tempMax : ℚ
  humidityMin : ℚ
  humidityMax : ℚ
  pressureMin : ℚ
  pressureMax : ℚ
  lightMin : ℚ
  lightMax : ℚ
  updateTimerActive : Bool
deriving DecidableEq, Repr

namespace MockI2C

/-- Model of `std::clamp(v, lo, hi)`: `lo` if `v < lo`, else `hi` if `hi < v`,
else `v`. -/
def clampQ (v lo hi : ℚ) : ℚ :=
  if v < lo then lo else if hi < v then hi else v

/-- The state set up by the `MockI2C` constructor (MockI2C.cpp:10-37)
before `loadCalibrationData` runs.  `m_currentData` is a
default-initialized aggregate in the C++ (its numeric fields are
indeterminate until the first update); it is given zeros here, and no
theorem depends on that choice. -/
def initialI2CState : I2CState :=
  { currentData :=
      { temperature := 0, humidity := 0, pressure := 0, lightLevel := 0
        isValid := false, timestamp := "" }
    isConnected := false
    simulateConnectionError := false
    simulateSensorFailure := false
    simulateDataCorruption := false
    dataLoggingEnabled := false
    tempOffset := 0
    humidityOffset := 0
    pressureOffset := 0
    lightOffset := 0
    tempMin := 18
    tempMax := 25
    humidityMin := 40
    humidityMax := 60
    pressureMin := 1013
    pressureMax := 1013.5
    lightMin := 100
    lightMax := 1000
    updateTimerActive := false }

/-- The corruption noise term `(m_randomGenerator() % 100 - 50) * 0.1`
(MockI2C.cpp:325-326).  The subtraction happens in the unsigned
`std::mt19937::result_type` (64-bit `uint_fast32_t` on the usual Linux
target), so for draws with `r % 100 < 50` it wraps around `2^64` before
the conversion to `double`, producing a huge positive addend rather than
a small negative one.  The later clamping makes every theorem below
insensitive to this value. -/
def corruptionNoise (r : Nat) : ℚ :=
  (((r % 100 + 2 ^ 64 - 50) % 2 ^ 64 : Nat) : ℚ) * (1 / 10)

/-- Model of `MockI2C::generateRandomData` (MockI2C.cpp:316-328): the four
uniform-distribution draws are the explicit arguments `ts hs ps ls`
(each drawn from the configured `[min,max]` range); `r1 r2` are the raw
generator draws used for corruption noise. -/
def generateRandomData (s : I2CState) (ts hs ps ls : ℚ) (r1 r2 : Nat) : I2CState :=
  let d := { s.currentData with
             temperature := ts, humidity := hs, pressure := ps, lightLevel := ls }
  let d :=
    if s.simulateDataCorruption then
      { d with temperature := d.temperature + corruptionNoise r1
               humidity := d.humidity + corruptionNoise r2 }
    else d
  { s with currentData := d }

/-- Model of `MockI2C::applyCalibration` (MockI2C.cpp:330-342): add the persisted
offsets, then clamp to the absolute physical bounds. -/
def applyCalibration (s : I2CState) : I2CState :=
  let d := s.currentData
  let d := { d with temperature := d.temperature + s.tempOffset
                    humidity := d.humidity + s.humidityOffset
                    pressure := d.pressure + s.pressureOffset
                    lightLevel := d.lightLevel + s.lightOffset }
  let d := { d with temperature := clampQ d.temperature (-40) 80
                    humidity := clampQ d.humidity 0 100
                    pressure := clampQ d.pressure 800 1200
                    lightLevel := clampQ d.lightLevel 0 10000 }
  { s with currentData := d }

/-- Model of `MockI2C::updateSensorData` (MockI2C.cpp:288-314), one periodic tick:
under the sensor-failure fault the reading is marked invalid and a
`sensorError` is emitted; otherwise generate, calibrate/clamp, stamp and
emit `dataUpdated`.  The optional `logData()` append touches only the
disk. -/
def updateSensorData (s : I2CState) (ts hs ps ls : ℚ) (r1 r2 : Nat)
    (now : String) : I2CState × List I2CEvent :=
  if s.simulateSensorFailure then
    ({ s with currentData := { s.currentData with isValid := false } },
     [I2CEvent.sensorError "Sensor failure - invalid readings"])
  else
    let s1 := applyCalibration (generateRandomData s ts hs ps ls r1 r2)
    let s2 := { s1 with currentData :=
                  { s1.currentData with timestamp := now, isValid := true } }
    (s2, [I2CEvent.dataUpdated s2.currentData])

/-- The reading published by one `updateSensorData` tick (the
`m_currentData` value after MockI2C.cpp:288-314 ran). -/
def tickReading (s : I2CState) (ts hs ps ls : ℚ) (r1 r2 : Nat) (now : String) : SensorData :=
  (updateSensorData s ts hs ps ls r1 r2 now).1.currentData

/-- The JSON object written by `MockI2C::saveCalibrationData`
(MockI2C.cpp:244-263), one record field per distinct JSON key; the range
keys hold two-element arrays `[min, max]`. -/
structure CalibrationConfig where
  temperature_offset : ℚ
  humidity_offset : ℚ
  pressure_offset : ℚ
  light_offset : ℚ
  temperature_range : List ℚ
  humidity_range : List ℚ
  pressure_range : List ℚ
  light_range : List ℚ
deriving DecidableEq, Repr

/-- Model of `MockI2C::saveCalibrationData` (MockI2C.cpp:244-263). -/
def saveCalibrationData (s : I2CState) : CalibrationConfig :=
  { temperature_offset := s.tempOffset
    humidity_offset := s.humidityOffset
    pressure_offset := s.pressureOffset
    light_offset := s.lightOffset
    temperature_range := [s.tempMin, s.tempMax]
    humidity_range := [s.humidityMin, s.humidityMax]
    pressure_range := [s.pressureMin, s.pressureMax]
    light_range := [s.lightMin, s.lightMax] }

/-- Model of `MockI2C::loadCalibrationData` (MockI2C.cpp:265-286): the four
offsets are read back, but of the four saved ranges only
`temperature_range` is read (when it has exactly two elements); the
`humidity_range`, `pressure_range` and `light_range` keys of the document
are never consulted, so those in-memory ranges keep their prior values. -/
def loadCalibrationData (s : I2CState) (config : CalibrationConfig) : I2CState :=
  let s := { s with tempOffset := config.temperature_offset
                    humidityOffset := config.humidity_offset
                    pressureOffset := config.pressure_offset
                    lightOffset := config.light_offset }
  match config.temperature_range with
  | [a, b] => { s with tempMin := a, tempMax := b }
  | _ => s

end MockI2C

/-! ## Concrete sample states (used by the witness theorems) -/

/-- A freshly discovered phone, as produced by
`simulateDeviceAppearance` (state `DISCONNECTED`, not paired). -/
def sampleAvailableDevice : BluetoothDevice :=
  { deviceId := "BT_1"
    deviceName := "iPhone 15 Pro"
    deviceAddress := "AA:BB:CC:DD:EE:01"
    deviceType := BluetoothDeviceType.PHONE
    connectionState := ConnectionState.DISCONNECTED
    isPaired := false
    isTrusted := false
    signalStrength := 88
    lastSeen := "2024-01-01 10:00:00"
    pairedTime := ""
    supportedProfiles := ["A2DP", "AVRCP", "HFP", "HSP", "PBAP", "MAP"]
    manufacturer := "Generic Manufacturer"
    model := "Generic Model"
    firmwareVersion := "1.0.0" }

/-- A device already in the paired registry. -/
def samplePairedDevice : BluetoothDevice :=
  { sampleAvailableDevice with
    deviceId := "BT_2"
    deviceName := "Sony WH-1000XM5"
    deviceAddress := "AA:BB:CC:DD:EE:02"
    deviceType := BluetoothDeviceType.HEADSET
    connectionState := ConnectionState.PAIRED
    isPaired := true
    supportedProfiles := ["A2DP", "AVRCP", "HFP", "HSP"]
    pairedTime := "2024-01-01T09:00:00" }

/-- An initialized `BluetoothSim` with one available and one paired
device and no fault flags. -/
def sampleBTState : BTState :=
  { availableDevices := [sampleAvailableDevice]
    pairedDevices := [samplePairedDevice]
    pairingTimers := []
    connectionTimers := []
    nextTimerId := 0
    isInitialized := true
    isDiscovering := false
    autoReconnect := true
    simulateBluetoothOff := false
    simulateInterference := false
    simulateLowBattery := false
    discoveryTimeout := 30
    pairingTimeout := 10
    connectionTimeout := 15
    supportedProfiles := ["A2DP", "AVRCP", "HFP", "HSP", "PBAP", "MAP", "OPP", "HID"]
    discoveryTimerActive := false
    stateTimerActive := true
    signalTimerActive := true }

/-- The sample state `sampleBTState` while discovery is running. -/
def sampleDiscoveringBTState : BTState :=
  { sampleBTState with isDiscovering := true, discoveryTimerActive := true }

/-- The sample state `sampleBTState` with the available device mid-pairing (state
`PAIRING`, a one-shot timer pending). -/
def samplePairingBTState : BTState :=
  { sampleBTState with
    availableDevices := [{ sampleAvailableDevice with
                           connectionState := ConnectionState.PAIRING }]
    pairingTimers := [("BT_1", 0)]
    nextTimerId := 1 }

/-- A connected storage device with an empty media list. -/
def sampleUSBDevice : USBDevice :=
  { deviceId := "USB_1"
    deviceName := "USB_DRIVE_01"
    mountPoint := "mnt/usb/USB_1"
    totalSpace := 32000000000
    freeSpace := 28000000000
    fileSystem := "FAT32"
    isConnected := true
    connectedTime := "2024-01-01T10:00:00"
    mediaFiles := [] }

/-- A `USBMonitor` registry holding just `sampleUSBDevice`, with the
default supported formats (USBMonitor.cpp:15-18). -/
def sampleUSBState : USBState :=
  { connectedDevices := [sampleUSBDevice]
    watchDirectories := ["mnt/usb", "media/usb", "tmp/usb"]
    supportedFormats := ["mp3", "wav", "flac", "aac", "ogg", "wma", "m4a",
                         "mp4", "avi", "mkv", "mov", "wmv", "flv", "webm"]
    isMonitoring := false
    autoScan := true
    simulateMountError := false
    simulateFileSystemError := false
    simulateCorruptedFiles := false
    scanTimerActive := false }

/-- The one-file directory listing of the C8 scenario. -/
def sampleListing : List FsEntry :=
  [{ fileName := "Artist - Title.mp3", size := 4000000, lastModified := "2024-01-01T09:59:00" }]

/-- The host filesystem for the C8 scenario: only the sample device's
mount directory exists and it holds `sampleListing`. -/
def sampleFs (path : String) : Option (List FsEntry) :=
  if path = "mnt/usb/USB_1" then some sampleListing else none

/-- A host with no valid `QStorageInfo` for any path. -/
def sampleStorage (_ : String) : Option (Nat × Nat × String) :=
  none

/-- A sensor state whose humidity sampling range was reconfigured to
[10,20] (e.g. via `setHumidityRange`), all else at constructor
defaults. -/
def sampleCalibState : I2CState :=
  { MockI2C.initialI2CState with humidityMin := 10, humidityMax := 20 }

/-! ## Shared lemmas -/

/-- Lemma: `isDevicePaired` is false when every entry carrying the id has a
false paired flag. -/
theorem isDevicePaired_eq_false (l : List BluetoothDevice) (deviceId : String)
    (h : ∀ d ∈ l, d.deviceId = deviceId → d.isPaired = false) :
    BluetoothSim.isDevicePaired l deviceId = false := by
  induction l with
  | nil => rfl
  | cons d rest ih =>
    rw [BluetoothSim.isDevicePaired]
    by_cases hd : d.deviceId = deviceId
    · simp only [hd, if_pos rfl]
      exact h d (List.mem_cons_self d rest) hd
    · rw [if_neg hd]
      exact ih fun x hx => h x (List.mem_cons_of_mem d hx)

/-- Lemma: `lookupConnectionState` is `DISCONNECTED` when no entry carries the
id. -/
theorem lookupConnectionState_eq_disconnected (l : List BluetoothDevice) (deviceId : String)
    (h : ∀ d ∈ l, d.deviceId ≠ deviceId) :
    BluetoothSim.lookupConnectionState deviceId l = ConnectionState.DISCONNECTED := by
  induction l with
  | nil => rfl
  | cons d rest ih =>
    rw [BluetoothSim.lookupConnectionState]
    rw [if_neg (h d (List.mem_cons_self d rest))]
    exact ih fun x hx => h x (List.mem_cons_of_mem d hx)

/-! ## Claim theorems -/

/-- C5: simulating the appearance of a phone-type device (e.g.
"iPhone 15 Pro") appends to the available collection a `WirelessDevice`
record whose supported profiles are exactly {A2DP, AVRCP, HFP, HSP, PBAP,
MAP} and whose initial signal strength lies in [75,100] (the code draws
`75 + rand % 25`, i.e. values in [75,99] ⊆ [75,100]). -/
theorem c5_phone_appearance_profiles_and_signal (s : BTState) (deviceName : String)
    (nowMs rand : Nat) (addr nowStr : String) :
    let device := BluetoothSim.appearedDevice deviceName BluetoothDeviceType.PHONE
      nowMs rand addr nowStr
    (BluetoothSim.simulateDeviceAppearance s deviceName BluetoothDeviceType.PHONE
        nowMs rand addr nowStr).1.availableDevices = s.availableDevices ++ [device] ∧
    device.supportedProfiles = ["A2DP", "AVRCP", "HFP", "HSP", "PBAP", "MAP"] ∧
    75 ≤ device.signalStrength ∧ device.signalStrength ≤ 100 := by
  refine ⟨rfl, rfl, ?_, ?_⟩
  · show (75 : ℤ) ≤ 75 + (rand : ℤ) % 25
    omega
  · show 75 + (rand : ℤ) % 25 ≤ 100
    omega

/-- C7: enabling the "Bluetooth off" fault stops any ongoing discovery
(the fault flag is set, the discovery timer is stopped and
`isDiscovering()` reports false), and while the flag is set every
`startDiscovery()` call has no effect at all — no state change, no
`discoveryStarted` signal — and `isDiscovering()` stays false. -/
theorem c7_bluetooth_off_blocks_discovery (s t : BTState)
    (ht : t.simulateBluetoothOff = true) :
    ((BluetoothSim.simulateBluetoothOff s true).1.simulateBluetoothOff = true ∧
     (BluetoothSim.simulateBluetoothOff s true).1.discoveryTimerActive = false ∧
     BluetoothSim.isDiscovering (BluetoothSim.simulateBluetoothOff s true).1 = false) ∧
    BluetoothSim.startDiscovery t = (t, []) ∧
    BluetoothSim.isDiscovering t = false := by
  refine ⟨⟨rfl, rfl, ?_⟩, ?_, ?_⟩
  · simp [BluetoothSim.simulateBluetoothOff, BluetoothSim.stopDiscovery,
      BluetoothSim.isDiscovering]
  · simp [BluetoothSim.startDiscovery, BluetoothSim.isInitialized, ht]
  · simp [BluetoothSim.isDiscovering, BluetoothSim.isInitialized, ht]

/-- Witness for C7 at concrete states: turning the fault on in the
discovering sample state, and calling `startDiscovery` on a state with
the flag already set. -/
theorem c7_bluetooth_off_blocks_discovery_witness :
    ((BluetoothSim.simulateBluetoothOff sampleDiscoveringBTState true).1.simulateBluetoothOff
       = true ∧
     (BluetoothSim.simulateBluetoothOff
        sampleDiscoveringBTState true).1.discoveryTimerActive = false ∧
     BluetoothSim.isDiscovering
       (BluetoothSim.simulateBluetoothOff sampleDiscoveringBTState true).1 = false) ∧
    BluetoothSim.startDiscovery
        { sampleDiscoveringBTState with simulateBluetoothOff := true }
      = ({ sampleDiscoveringBTState with simulateBluetoothOff := true }, []) ∧
    BluetoothSim.isDiscovering
        { sampleDiscoveringBTState with simulateBluetoothOff := true } = false :=
  c7_bluetooth_off_blocks_discovery sampleDiscoveringBTState
    { sampleDiscoveringBTState with simulateBluetoothOff := true } rfl

/-- C9: `getConnectionState(id)` returns `DISCONNECTED` for every id with
no entry in the paired collection, and the query never consults the
available collection (its result is invariant under replacing that
collection by anything, so ids of available devices currently `PAIRING`
also report `DISCONNECTED`). -/
theorem c9_connection_state_ignores_available (s : BTState) (deviceId : String) :
    ((∀ d ∈ s.pairedDevices, d.deviceId ≠ deviceId) →
       BluetoothSim.getConnectionState s deviceId = ConnectionState.DISCONNECTED) ∧
    ∀ avail, BluetoothSim.getConnectionState { s with availableDevices := avail } deviceId
      = BluetoothSim.getConnectionState s deviceId := by
  refine ⟨?_, fun _ => rfl⟩
  intro h
  exact lookupConnectionState_eq_disconnected s.pairedDevices deviceId h

/-- Witness for C9: in the sample state whose available device `BT_1` is
mid-`PAIRING`, `getConnectionState "BT_1"` is still `DISCONNECTED`. -/
theorem c9_connection_state_ignores_available_witness :
    BluetoothSim.getConnectionState samplePairingBTState "BT_1"
      = ConnectionState.DISCONNECTED :=
  (c9_connection_state_ignores_available samplePairingBTState "BT_1").1 (by decide)

/-- C2: `connectDevice(id)` for an id with no paired-collection entry (or
whose entries all have a false paired flag) returns false and changes
nothing: the full simulator state — both collections and every device's
connection state included — is returned untouched and no signal is
emitted. -/
theorem c2_connect_unpaired_rejected (s : BTState) (deviceId : String)
    (h : ∀ d ∈ s.pairedDevices, d.deviceId = deviceId → d.isPaired = false) :
    BluetoothSim.connectDevice s deviceId = (false, s, []) := by
  rw [BluetoothSim.connectDevice]
  by_cases hinit : BluetoothSim.isInitialized s
  · rw [isDevicePaired_eq_false s.pairedDevices deviceId h]
    simp [hinit]
  · simp [Bool.eq_false_iff.mpr hinit]

/-- Witness for C2: connecting the unknown id `BT_9` on the sample state
fails with no state change. -/
theorem c2_connect_unpaired_rejected_witness :
    BluetoothSim.connectDevice sampleBTState "BT_9" = (false, sampleBTState, []) :=
  c2_connect_unpaired_rejected sampleBTState "BT_9" (by decide)

/-- C10: `simulateUSBRemoval("")` on a non-empty registry removes the
first registered device and emits its `deviceDisconnected` notification;
on an empty registry it changes nothing and emits nothing. -/
theorem c10_usb_removal_empty_id (s : USBState) :
    (s.connectedDevices = [] → USBMonitor.simulateUSBRemoval s "" = (s, [])) ∧
    ∀ d rest, s.connectedDevices = d :: rest →
      USBMonitor.simulateUSBRemoval s "" =
        ({ s with connectedDevices := rest },
         [USBEvent.deviceDisconnected d.deviceId]) := by
  constructor
  · intro h
    obtain ⟨devs, wd, sf, im, asc, sme, sfe, scf, sta⟩ := s
    simp only at h
    subst h
    rfl
  · intro d rest h
    obtain ⟨devs, wd, sf, im, asc, sme, sfe, scf, sta⟩ := s
    simp only at h
    subst h
    simp [USBMonitor.simulateUSBRemoval, USBMonitor.removeFirstDevice]

/-- Witness for C10: removal with an empty id on the one-device sample
registry drops `USB_1`, and on the emptied registry does nothing. -/
theorem c10_usb_removal_empty_id_witness :
    USBMonitor.simulateUSBRemoval sampleUSBState "" =
      ({ sampleUSBState with connectedDevices := [] },
       [USBEvent.deviceDisconnected "USB_1"]) ∧
    USBMonitor.simulateUSBRemoval { sampleUSBState with connectedDevices := [] } "" =
      ({ sampleUSBState with connectedDevices := [] }, []) :=
  ⟨(c10_usb_removal_empty_id sampleUSBState).2 sampleUSBDevice [] rfl,
   (c10_usb_removal_empty_id { sampleUSBState with connectedDevices := [] }).1 rfl⟩

/-- Lemma: `std::clamp` never goes below the lower bound (when the bounds are
ordered). -/
theorem clampQ_lower (v lo hi : ℚ) (h : lo ≤ hi) : lo ≤ MockI2C.clampQ v lo hi := by
  rw [MockI2C.clampQ]
  split_ifs <;> linarith

/-- Lemma: `std::clamp` never exceeds the upper bound (when the bounds are
ordered). -/
theorem clampQ_upper (v lo hi : ℚ) (h : lo ≤ hi) : MockI2C.clampQ v lo hi ≤ hi := by
  rw [MockI2C.clampQ]
  split_ifs <;> linarith

/-- C4: whatever the configured sampling ranges, the calibration offsets,
the drawn samples and any corruption noise, the reading produced by a
non-failing sensor tick satisfies temperature ∈ [-40,80], humidity ∈
[0,100], pressure ∈ [800,1200] and light ∈ [0,10000]. -/
theorem c4_reading_within_physical_bounds (s : I2CState) (ts hs ps ls : ℚ)
    (r1 r2 : Nat) (now : String) (hfail : s.simulateSensorFailure = false) :
    (-40 ≤ (MockI2C.tickReading s ts hs ps ls r1 r2 now).temperature ∧
      (MockI2C.tickReading s ts hs ps ls r1 r2 now).temperature ≤ 80) ∧
    (0 ≤ (MockI2C.tickReading s ts hs ps ls r1 r2 now).humidity ∧
      (MockI2C.tickReading s ts hs ps ls r1 r2 now).humidity ≤ 100) ∧
    (800 ≤ (MockI2C.tickReading s ts hs ps ls r1 r2 now).pressure ∧
      (MockI2C.tickReading s ts hs ps ls r1 r2 now).pressure ≤ 1200) ∧
    (0 ≤ (MockI2C.tickReading s ts hs ps ls r1 r2 now).lightLevel ∧
      (MockI2C.tickReading s ts hs ps ls r1 r2 now).lightLevel ≤ 10000) := by
  rw [MockI2C.tickReading, MockI2C.updateSensorData]
  simp only [hfail, Bool.false_eq_true, if_false, MockI2C.applyCalibration]
  exact ⟨⟨clampQ_lower _ _ _ (by norm_num), clampQ_upper _ _ _ (by norm_num)⟩,
    ⟨clampQ_lower _ _ _ (by norm_num), clampQ_upper _ _ _ (by norm_num)⟩,
    ⟨clampQ_lower _ _ _ (by norm_num), clampQ_upper _ _ _ (by norm_num)⟩,
    ⟨clampQ_lower _ _ _ (by norm_num), clampQ_upper _ _ _ (by norm_num)⟩⟩

/-- Witness for C4 at a concrete non-failing tick of the default state
(with deliberately wild sample values). -/
theorem c4_reading_within_physical_bounds_witness :
    (-40 ≤ (MockI2C.tickReading MockI2C.initialI2CState 500 (-3) 2000 (-7) 1 2
              "t").temperature ∧
      (MockI2C.tickReading MockI2C.initialI2CState 500 (-3) 2000 (-7) 1 2
        "t").temperature ≤ 80) ∧
    (0 ≤ (MockI2C.tickReading MockI2C.initialI2CState 500 (-3) 2000 (-7) 1 2
            "t").humidity ∧
      (MockI2C.tickReading MockI2C.initialI2CState 500 (-3) 2000 (-7) 1 2
        "t").humidity ≤ 100) ∧
    (800 ≤ (MockI2C.tickReading MockI2C.initialI2CState 500 (-3) 2000 (-7) 1 2
              "t").pressure ∧
      (MockI2C.tickReading MockI2C.initialI2CState 500 (-3) 2000 (-7) 1 2
        "t").pressure ≤ 1200) ∧
    (0 ≤ (MockI2C.tickReading MockI2C.initialI2CState 500 (-3) 2000 (-7) 1 2
            "t").lightLevel ∧
      (MockI2C.tickReading MockI2C.initialI2CState 500 (-3) 2000 (-7) 1 2
        "t").lightLevel ≤ 10000) :=
  c4_reading_within_physical_bounds MockI2C.initialI2CState 500 (-3) 2000 (-7) 1 2 "t" rfl

/-- C3 (failing part, at a concrete input): saving a state whose humidity
sampling range is [10,20] writes `humidity_range = [10,20]` into the
document, yet loading that very document into a fresh default state
leaves the humidity range at the constructor defaults [40,60] —
`loadCalibrationData` never reads the `humidity_range`, `pressure_range`
or `light_range` keys, so the save/load round trip loses three of the
four configured ranges. -/
theorem c3_sensor_range_round_trip_fails :
    sampleCalibState.humidityMin = 10 ∧ sampleCalibState.humidityMax = 20 ∧
    (MockI2C.saveCalibrationData sampleCalibState).humidity_range = [10, 20] ∧
    (MockI2C.loadCalibrationData MockI2C.initialI2CState
        (MockI2C.saveCalibrationData sampleCalibState)).humidityMin = 40 ∧
    (MockI2C.loadCalibrationData MockI2C.initialI2CState
        (MockI2C.saveCalibrationData sampleCalibState)).humidityMax = 60 :=
  ⟨rfl, rfl, rfl, rfl, rfl⟩

/-- After a successful `tryStartPairing`, re-running it on the updated
list finds the first matching device already `PAIRING` and rejects. -/
theorem tryStartPairing_rejects_second (deviceId : String) :
    ∀ l l', BluetoothSim.tryStartPairing deviceId l = some (true, l') →
      BluetoothSim.tryStartPairing deviceId l' = some (false, l') := by
  intro l
  induction l with
  | nil => intro l' h; simp [BluetoothSim.tryStartPairing] at h
  | cons d rest ih =>
    intro l' h
    rw [BluetoothSim.tryStartPairing] at h
    by_cases hd : d.deviceId = deviceId
    · by_cases hp : d.connectionState = ConnectionState.PAIRING
      · simp [hd, hp] at h
      · simp only [hd, hp, if_true, if_false, ite_true, ite_false,
          Option.some.injEq, Prod.mk.injEq, true_and] at h
        rw [← h]
        simp [BluetoothSim.tryStartPairing, hd]
    · rw [if_neg hd] at h
      cases hts : BluetoothSim.tryStartPairing deviceId rest with
      | none => rw [hts] at h; simp at h
      | some p =>
        obtain ⟨ok, rest'⟩ := p
        rw [hts] at h
        simp only [Option.some.injEq, Prod.mk.injEq] at h
        obtain ⟨hok, hl⟩ := h
        subst hok
        rw [← hl, BluetoothSim.tryStartPairing, if_neg hd,
          ih rest' hts]

/-- C6: a second `pairDevice(id)` call issued while a first one is still
pending returns false and leaves the simulator state — the available
collection, and in particular the pending one-shot pairing-timer entry in
`m_pairingTimers` — exactly as it was, and emits nothing. -/
theorem c6_second_pair_rejected (s s' : BTState) (deviceId : String)
    (evs : List BTEvent)
    (h : BluetoothSim.pairDevice s deviceId = (true, s', evs)) :
    BluetoothSim.pairDevice s' deviceId = (false, s', []) := by
  rw [BluetoothSim.pairDevice] at h
  by_cases hinit : BluetoothSim.isInitialized s = true
  · rw [if_neg (by simp [hinit])] at h
    cases hts : BluetoothSim.tryStartPairing deviceId s.availableDevices with
    | none => rw [hts] at h; simp at h
    | some p =>
      obtain ⟨ok, avail'⟩ := p
      rw [hts] at h
      cases ok with
      | false => simp at h
      | true =>
        simp only [Prod.mk.injEq, true_and] at h
        obtain ⟨hs', -⟩ := h
        have hinit2 : BluetoothSim.isInitialized s' = true := by
          rw [← hs']; exact hinit
        have hax : s'.availableDevices = avail' := by rw [← hs']; rfl
        rw [BluetoothSim.pairDevice, if_neg (by simp [hinit2]), hax,
          tryStartPairing_rejects_second deviceId s.availableDevices avail' hts]
  · rw [if_pos (by simp [Bool.not_eq_true _ ▸ hinit])] at h
    simp at h

/-- Witness for C6: pairing the sample available device `BT_1` succeeds,
and an immediate second `pairDevice "BT_1"` on the resulting state is
rejected with no state change. -/
theorem c6_second_pair_rejected_witness :
    (BluetoothSim.pairDevice sampleBTState "BT_1").1 = true ∧
    BluetoothSim.pairDevice (BluetoothSim.pairDevice sampleBTState "BT_1").2.1 "BT_1"
      = (false, (BluetoothSim.pairDevice sampleBTState "BT_1").2.1, []) :=
  ⟨by decide,
   c6_second_pair_rejected sampleBTState
     (BluetoothSim.pairDevice sampleBTState "BT_1").2.1 "BT_1"
     (BluetoothSim.pairDevice sampleBTState "BT_1").2.2 (by decide)⟩

/-- Lemma: `completePairing` at the first occurrence of the id: the matched
device is removed from the list and returned with its paired fields
set. -/
theorem completePairing_first_match (deviceId now : String)
    (pre : List BluetoothDevice) (d : BluetoothDevice) (post : List BluetoothDevice)
    (hpre : ∀ x ∈ pre, x.deviceId ≠ deviceId) (hd : d.deviceId = deviceId) :
    BluetoothSim.completePairing deviceId now (pre ++ d :: post)
      = (pre ++ post,
         some { d with isPaired := true
                       connectionState := ConnectionState.PAIRED
                       pairedTime := now }) := by
  induction pre with
  | nil => simp [BluetoothSim.completePairing, hd]
  | cons x rest ih =>
    rw [List.cons_append, BluetoothSim.completePairing,
      if_neg (hpre x (List.mem_cons_self x rest)),
      ih fun y hy => hpre y (List.mem_cons_of_mem x hy)]
    rfl

/-- C1: when the one-shot pairing callback fires for a device that is in
the available collection (under the registry invariants that ids are
unique and the two collections are id-disjoint), the device ends up in
the paired collection exactly once, with its paired flag set and state
`Paired`, is absent from the available collection, and the two
collections remain id-disjoint — no device is a member of both. -/
theorem c1_pairing_completion (s : BTState) (deviceId now : String)
    (hmem : deviceId ∈ s.availableDevices.map BluetoothDevice.deviceId)
    (hnodup : (s.availableDevices.map BluetoothDevice.deviceId).Nodup)
    (hdisj : ∀ d ∈ s.availableDevices, ∀ p ∈ s.pairedDevices, d.deviceId ≠ p.deviceId) :
    ((BluetoothSim.pairingTimerFired s deviceId now).1.pairedDevices.countP
        (fun d => d.deviceId == deviceId) = 1) ∧
    (∀ d ∈ (BluetoothSim.pairingTimerFired s deviceId now).1.pairedDevices,
      d.deviceId = deviceId →
        d.isPaired = true ∧ d.connectionState = ConnectionState.PAIRED) ∧
    (∀ d ∈ (BluetoothSim.pairingTimerFired s deviceId now).1.availableDevices,
      d.deviceId ≠ deviceId) ∧
    (∀ d ∈ (BluetoothSim.pairingTimerFired s deviceId now).1.availableDevices,
      ∀ p ∈ (BluetoothSim.pairingTimerFired s deviceId now).1.pairedDevices,
        d.deviceId ≠ p.deviceId) := by
  obtain ⟨d, hdmem, hdid⟩ := List.mem_map.mp hmem
  obtain ⟨pre, post, hsplit⟩ := List.append_of_mem hdmem
  have hmapnodup := hnodup
  rw [hsplit, List.map_append, List.map_cons, List.nodup_append] at hmapnodup
  obtain ⟨-, hnodup2, hdisj12⟩ := hmapnodup
  rw [List.nodup_cons] at hnodup2
  have hpre : ∀ x ∈ pre, x.deviceId ≠ deviceId := by
    intro x hx hxid
    exact hdisj12 (List.mem_map.mpr ⟨x, hx, hxid.trans hdid.symm⟩)
      (List.mem_cons_self _ _)
  have hpost : ∀ x ∈ post, x.deviceId ≠ deviceId := by
    intro x hx hxid
    exact hnodup2.1 (List.mem_map.mpr ⟨x, hx, hxid.trans hdid.symm⟩)
  have hkey : (BluetoothSim.pairingTimerFired s deviceId now).1
      = { s with availableDevices := pre ++ post
                 pairedDevices := s.pairedDevices ++
                   [{ d with isPaired := true
                             connectionState := ConnectionState.PAIRED
                             pairedTime := now }]
                 pairingTimers := BluetoothSim.removeTimer s.pairingTimers deviceId } := by
    rw [BluetoothSim.pairingTimerFired, hsplit,
      completePairing_first_match deviceId now pre d post hpre hdid]
  rw [hkey]
  refine ⟨?_, ?_, ?_, ?_⟩
  · have h0 : s.pairedDevices.countP (fun x => x.deviceId == deviceId) = 0 := by
      rw [List.countP_eq_zero]
      intro p hp hbeq
      have hpid : p.deviceId = deviceId := by simpa using hbeq
      exact hdisj d hdmem p hp (hdid.trans hpid.symm)
    simp [List.countP_append, List.countP_cons, h0, hdid]
  · intro x hx hxid
    rw [List.mem_append] at hx
    rcases hx with hx | hx
    · exact absurd (hdid.trans hxid.symm) (hdisj d hdmem x hx)
    · rw [List.mem_singleton] at hx
      subst hx
      exact ⟨rfl, rfl⟩
  · intro x hx
    rw [List.mem_append] at hx
    rcases hx with hx | hx
    · exact hpre x hx
    · exact hpost x hx
  · intro x hx p hp
    have hx2 : x ∈ pre ++ post := hx
    rw [List.mem_append] at hx2
    have hxid : x.deviceId ≠ deviceId := by
      rcases hx2 with h | h
      · exact hpre x h
      · exact hpost x h
    rw [List.mem_append] at hp
    rcases hp with hp | hp
    · have hxavail : x ∈ s.availableDevices := by
        rw [hsplit, List.mem_append]
        rcases hx2 with h | h
        · exact Or.inl h
        · exact Or.inr (List.mem_cons_of_mem d h)
      exact hdisj x hxavail p hp
    · rw [List.mem_singleton] at hp
      subst hp
      intro he
      exact hxid (he.trans hdid)

/-- Witness for C1: firing the pending pairing callback for `BT_1` in the
mid-pairing sample state. -/
theorem c1_pairing_completion_witness :
    ((BluetoothSim.pairingTimerFired samplePairingBTState "BT_1" "t1").1.pairedDevices.countP
        (fun d => d.deviceId == "BT_1") = 1) ∧
    (∀ d ∈ (BluetoothSim.pairingTimerFired samplePairingBTState "BT_1" "t1").1.pairedDevices,
      d.deviceId = "BT_1" →
        d.isPaired = true ∧ d.connectionState = ConnectionState.PAIRED) ∧
    (∀ d ∈ (BluetoothSim.pairingTimerFired samplePairingBTState "BT_1" "t1").1.availableDevices,
      d.deviceId ≠ "BT_1") ∧
    (∀ d ∈ (BluetoothSim.pairingTimerFired samplePairingBTState "BT_1" "t1").1.availableDevices,
      ∀ p ∈ (BluetoothSim.pairingTimerFired samplePairingBTState "BT_1" "t1").1.pairedDevices,
        d.deviceId ≠ p.deviceId) :=
  c1_pairing_completion samplePairingBTState "BT_1" "t1" (by decide) (by decide) (by decide)

/-- The scan loop does nothing over an index range holding no connected
device with the scanned id. -/
theorem scanMediaFilesFrom_no_match (formats : List String) (deviceId : String)
    (fs : String → Option (List FsEntry)) (storage : String → Option (Nat × Nat × String)) :
    ∀ (k i : Nat) (devs : List USBDevice),
      (∀ j, i ≤ j → j < i + k → ∀ x, devs[j]? = some x →
        ¬(x.deviceId = deviceId ∧ x.isConnected = true)) →
      USBMonitor.scanMediaFilesFrom formats deviceId fs storage k i devs = (devs, []) := by
  intro k
  induction k with
  | zero => intro i devs _; rfl
  | succ n ih =>
    intro i devs h
    have hAt : USBMonitor.scanMediaFilesAt formats deviceId fs storage devs i = (devs, []) := by
      cases hj : devs[i]? with
      | none => simp only [USBMonitor.scanMediaFilesAt, hj]
      | some d =>
        simp only [USBMonitor.scanMediaFilesAt, hj]
        rw [if_neg (h i le_rfl (by omega) d hj)]
    simp only [USBMonitor.scanMediaFilesFrom, hAt,
      ih (i + 1) devs (fun j hj1 hj2 x hx => h j (by omega) (by omega) x hx),
      List.nil_append]

/-- Splitting a scan-loop run over `a + b` positions into two consecutive
runs. -/
theorem scanMediaFilesFrom_add (formats : List String) (deviceId : String)
    (fs : String → Option (List FsEntry)) (storage : String → Option (Nat × Nat × String)) :
    ∀ (a b i : Nat) (devs : List USBDevice),
      USBMonitor.scanMediaFilesFrom formats deviceId fs storage (a + b) i devs
        = ((USBMonitor.scanMediaFilesFrom formats deviceId fs storage b (i + a)
              (USBMonitor.scanMediaFilesFrom formats deviceId fs storage a i devs).1).1,
           (USBMonitor.scanMediaFilesFrom formats deviceId fs storage a i devs).2 ++
             (USBMonitor.scanMediaFilesFrom formats deviceId fs storage b (i + a)
               (USBMonitor.scanMediaFilesFrom formats deviceId fs storage a i devs).1).2) := by
  intro a
  induction a with
  | zero =>
    intro b i devs
    simp [USBMonitor.scanMediaFilesFrom]
  | succ n ih =>
    intro b i devs
    rw [Nat.succ_add]
    rcases hAt : USBMonitor.scanMediaFilesAt formats deviceId fs storage devs i
      with ⟨devs1, evs1⟩
    simp only [USBMonitor.scanMediaFilesFrom, hAt]
    rw [ih b (i + 1) devs1]
    have hidx : i + 1 + n = i + (n + 1) := by omega
    rw [hidx, List.append_assoc]

/-- Lemma: `updateDeviceSpace` at the first occurrence of the id when the host
reports no valid `QStorageInfo`: nothing changes. -/
theorem updateDeviceSpace_first_match_none (storage : String → Option (Nat × Nat × String))
    (deviceId : String) (pre : List USBDevice) (d : USBDevice) (post : List USBDevice)
    (hpre : ∀ x ∈ pre, x.deviceId ≠ deviceId) (hd : d.deviceId = deviceId)
    (hstor : storage d.mountPoint = none) :
    USBMonitor.updateDeviceSpace storage deviceId (pre ++ d :: post) = pre ++ d :: post := by
  induction pre with
  | nil => simp [USBMonitor.updateDeviceSpace, hd, hstor]
  | cons x rest ih =>
    rw [List.cons_append, USBMonitor.updateDeviceSpace,
      if_neg (hpre x (List.mem_cons_self x rest)),
      ih fun y hy => hpre y (List.mem_cons_of_mem x hy)]

/-- Lemma: `updateDeviceSpace` at the first occurrence of the id when the host
reports space values: exactly that device's space fields are refreshed. -/
theorem updateDeviceSpace_first_match_some (storage : String → Option (Nat × Nat × String))
    (deviceId : String) (pre : List USBDevice) (d : USBDevice) (post : List USBDevice)
    (tot free : Nat) (fsType : String)
    (hpre : ∀ x ∈ pre, x.deviceId ≠ deviceId) (hd : d.deviceId = deviceId)
    (hstor : storage d.mountPoint = some (tot, free, fsType)) :
    USBMonitor.updateDeviceSpace storage deviceId (pre ++ d :: post)
      = pre ++ { d with totalSpace := tot, freeSpace := free, fileSystem := fsType } :: post := by
  induction pre with
  | nil => simp [USBMonitor.updateDeviceSpace, hd, hstor]
  | cons x rest ih =>
    rw [List.cons_append, USBMonitor.updateDeviceSpace,
      if_neg (hpre x (List.mem_cons_self x rest)),
      ih fun y hy => hpre y (List.mem_cons_of_mem x hy)]
    rfl

/-- The full scan run over a registry containing the target device once:
assuming the post-space-update record is `dev2`, the run rewrites exactly
that slot and emits one `mediaFilesChanged`. -/
theorem scanMediaFiles_run (s : USBState) (deviceId : String)
    (fs : String → Option (List FsEntry)) (storage : String → Option (Nat × Nat × String))
    (pre post : List USBDevice) (dev dev2 : USBDevice) (entries : List FsEntry)
    (hsplit : s.connectedDevices = pre ++ dev :: post)
    (hid : dev.deviceId = deviceId) (hconn : dev.isConnected = true)
    (hpre : ∀ x ∈ pre, x.deviceId ≠ deviceId) (hpost : ∀ x ∈ post, x.deviceId ≠ deviceId)
    (hfs : fs dev.mountPoint = some entries)
    (hupd : USBMonitor.updateDeviceSpace storage deviceId
        (pre ++ { dev with mediaFiles :=
            USBMonitor.scanDeviceFiles s.supportedFormats dev.mountPoint entries } :: post)
      = pre ++ dev2 :: post) :
    (USBMonitor.scanMediaFiles s deviceId fs storage).1.connectedDevices
      = pre ++ dev2 :: post := by
  have hget : (pre ++ dev :: post)[pre.length]? = some dev := by
    rw [List.getElem?_append, if_neg (by omega)]
    simp
  have hset : (pre ++ dev :: post).set pre.length
      { dev with mediaFiles :=
          USBMonitor.scanDeviceFiles s.supportedFormats dev.mountPoint entries }
      = pre ++ { dev with mediaFiles :=
          USBMonitor.scanDeviceFiles s.supportedFormats dev.mountPoint entries } :: post := by
    rw [List.set_append, if_neg (by omega)]
    simp
  have hstep : USBMonitor.scanMediaFilesAt s.supportedFormats deviceId fs storage
      (pre ++ dev :: post) pre.length
      = (pre ++ dev2 :: post,
         [USBEvent.mediaFilesChanged deviceId
           (USBMonitor.scanDeviceFiles s.supportedFormats dev.mountPoint entries)]) := by
    simp only [USBMonitor.scanMediaFilesAt, hget]
    rw [if_pos (show dev.deviceId = deviceId ∧ dev.isConnected = true from ⟨hid, hconn⟩)]
    simp only [hfs, hset, hupd]
  have hphaseA : USBMonitor.scanMediaFilesFrom s.supportedFormats deviceId fs storage
      pre.length 0 (pre ++ dev :: post) = (pre ++ dev :: post, []) := by
    apply scanMediaFilesFrom_no_match
    intro j hj0 hjlt x hx hcond
    rw [List.getElem?_append, if_pos (by omega)] at hx
    exact hpre x (List.getElem?_mem hx) hcond.1
  have hphaseC : USBMonitor.scanMediaFilesFrom s.supportedFormats deviceId fs storage
      post.length (pre.length + 1) (pre ++ dev2 :: post) = (pre ++ dev2 :: post, []) := by
    apply scanMediaFilesFrom_no_match
    intro j hj0 hjlt x hx hcond
    rw [List.getElem?_append, if_neg (by omega)] at hx
    have hj2 : j - pre.length = (j - pre.length - 1) + 1 := by omega
    rw [hj2] at hx
    simp only [List.getElem?_cons_succ] at hx
    exact hpost x (List.getElem?_mem hx) hcond.1
  have hfull : USBMonitor.scanMediaFilesFrom s.supportedFormats deviceId fs storage
      (pre.length + (post.length + 1)) 0 (pre ++ dev :: post)
      = (pre ++ dev2 :: post,
         [USBEvent.mediaFilesChanged deviceId
           (USBMonitor.scanDeviceFiles s.supportedFormats dev.mountPoint entries)]) := by
    rw [scanMediaFilesFrom_add s.supportedFormats deviceId fs storage
      pre.length (post.length + 1) 0, hphaseA]
    simp only [USBMonitor.scanMediaFilesFrom, Nat.zero_add, hstep, hphaseC]
    rfl
  have hlen : s.connectedDevices.length = pre.length + (post.length + 1) := by
    rw [hsplit]
    simp [List.length_append]
  rw [USBMonitor.scanMediaFiles, hsplit, ← hsplit, hlen, hsplit, hfull]

/-- C8: scanning a connected storage device whose (existing) mount
directory lists a file `Artist - Title.mp3` — with `"mp3"` among the
supported formats and the device id unique in the registry — replaces
that device's media-file list wholesale with the list freshly built from
the directory listing alone, and that list contains a `MediaFile` for the
file with artist "Artist", title "Title" and file type "mp3". -/
theorem c8_scan_parses_artist_title (s : USBState) (deviceId : String)
    (fs : String → Option (List FsEntry)) (storage : String → Option (Nat × Nat × String))
    (pre post : List USBDevice) (dev : USBDevice) (entries : List FsEntry) (e : FsEntry)
    (hsplit : s.connectedDevices = pre ++ dev :: post)
    (hid : dev.deviceId = deviceId) (hconn : dev.isConnected = true)
    (hunique : ∀ x, (x ∈ pre ∨ x ∈ post) → x.deviceId ≠ deviceId)
    (hfs : fs dev.mountPoint = some entries)
    (hentry : e ∈ entries) (hname : e.fileName = "Artist - Title.mp3")
    (hmp3 : "mp3" ∈ s.supportedFormats) :
    ∃ dev',
      (USBMonitor.scanMediaFiles s deviceId fs storage).1.connectedDevices
          = pre ++ dev' :: post ∧
      dev'.mediaFiles
          = USBMonitor.scanDeviceFiles s.supportedFormats dev.mountPoint entries ∧
      ∃ m ∈ dev'.mediaFiles, m.fileName = "Artist - Title.mp3" ∧
        m.artist = "Artist" ∧ m.title = "Title" ∧ m.fileType = "mp3" := by
  have hpre : ∀ x ∈ pre, x.deviceId ≠ deviceId := fun x hx => hunique x (Or.inl hx)
  have hpost : ∀ x ∈ post, x.deviceId ≠ deviceId := fun x hx => hunique x (Or.inr hx)
  have hmfile : ∃ m ∈ USBMonitor.scanDeviceFiles s.supportedFormats dev.mountPoint entries,
      m.fileName = "Artist - Title.mp3" ∧
      m.artist = "Artist" ∧ m.title = "Title" ∧ m.fileType = "mp3" := by
    refine ⟨USBMonitor.scanEntryToMediaFile dev.mountPoint e, ?_, ?_⟩
    · apply List.mem_map_of_mem
      rw [List.mem_filter]
      refine ⟨hentry, ?_⟩
      rw [USBMonitor.isMediaFile, hname]
      rw [show USBMonitor.strToLower (USBMonitor.fileSuffix "Artist - Title.mp3") = "mp3"
        from by decide]
      exact List.elem_eq_true_of_mem hmp3
    · obtain ⟨nm, sz, lm⟩ := e
      simp only at hname
      subst hname
      exact ⟨rfl, rfl, rfl, rfl⟩
  cases hstor : storage dev.mountPoint with
  | none =>
    refine ⟨{ dev with
        mediaFiles := USBMonitor.scanDeviceFiles s.supportedFormats dev.mountPoint entries },
      ?_, rfl, hmfile⟩
    exact scanMediaFiles_run s deviceId fs storage pre post dev _ entries hsplit hid hconn
      hpre hpost hfs
      (updateDeviceSpace_first_match_none storage deviceId pre _ post hpre hid hstor)
  | some t =>
    obtain ⟨tot, free, fsType⟩ := t
    refine ⟨{ dev with
        mediaFiles := USBMonitor.scanDeviceFiles s.supportedFormats dev.mountPoint entries,
        totalSpace := tot, freeSpace := free, fileSystem := fsType },
      ?_, rfl, hmfile⟩
    exact scanMediaFiles_run s deviceId fs storage pre post dev _ entries hsplit hid hconn
      hpre hpost hfs
      (updateDeviceSpace_first_match_some storage deviceId pre _ post tot free fsType
        hpre hid hstor)

/-- Witness for C8: scanning the sample one-device registry whose mount
directory holds `Artist - Title.mp3`. -/
theorem c8_scan_parses_artist_title_witness :
    ∃ dev',
      (USBMonitor.scanMediaFiles sampleUSBState "USB_1" sampleFs
          sampleStorage).1.connectedDevices = [] ++ dev' :: [] ∧
      dev'.mediaFiles
          = USBMonitor.scanDeviceFiles sampleUSBState.supportedFormats
              sampleUSBDevice.mountPoint sampleListing ∧
      ∃ m ∈ dev'.mediaFiles, m.fileName = "Artist - Title.mp3" ∧
        m.artist = "Artist" ∧ m.title = "Title" ∧ m.fileType = "mp3" :=
  c8_scan_parses_artist_title sampleUSBState "USB_1" sampleFs sampleStorage
    [] [] sampleUSBDevice sampleListing
    { fileName := "Artist - Title.mp3", size := 4000000,
      lastModified := "2024-01-01T09:59:00" }
    rfl rfl rfl (by intro x hx; rcases hx with h | h <;> exact absurd h (List.not_mem_nil x))
    (by decide) (by decide) rfl (by decide)

end AutoDash
